import Mathlib

/-!
Shallow embedding of the core of the Smart Lost-and-Found portal:
the label-overlap Matcher (`findMatches`, `sendMatchNotification` in
functions/src/index.ts) and the OTP claim-verification flow
(`sendClaimOTP`, `verifyClaimOTP` in functions/src/index.ts, and the
client-side flow in src/pages/ClaimPage.tsx).

Modelling conventions:
* Firestore is modelled as a `Store`: two finite maps (items keyed by
  document id, OTP challenges keyed by the string `itemId ++ "_" ++ uid`).
* Each callable function is translated in state-passing style.  A call
  returns `Except HttpsErrorCode Unit × Store`: the typed result surfaced
  to the caller together with the database state after the call.  In the
  source, every throw happens before any Firestore write on that path, so
  failure paths return the input store unchanged.
* JavaScript numbers used as timestamps are modelled as `Int`
  (milliseconds); `Math.random()` is modelled as a rational `r` with
  `0 ≤ r < 1`; JavaScript string lowercasing is ASCII `Char.toLower`;
  `String.prototype.includes` is substring (contiguous sublist)
  containment on the underlying character lists.
-/

namespace SmartLF

/-- Enumeration of the item `type` field: `lost` or `found`. -/
inductive ItemType where
  | lost
  | found
deriving DecidableEq

/-- Enumeration of the item `status` field. -/
inductive ItemStatus where
  | unclaimed
  | claimed
  | pending
deriving DecidableEq

/-- An item document (src/types, `Item`), restricted to the fields the
core logic reads or writes. -/
structure Item where
  userId : String
  userEmail : String
  type : ItemType
  title : String
  imageLabels : List String
  status : ItemStatus
  claimantId : Option String := none
  claimantEmail : Option String := none
  claimedAt : Option Int := none
deriving DecidableEq

/-- ASCII lowercasing of a string, modelling `String.prototype.toLowerCase`. -/
def lowercase (s : String) : String := s.map Char.toLower

/-- Substring containment, modelling `hay.includes(needle)` in JavaScript:
true iff the character list of `needle` occurs contiguously in `hay`. -/
def jsIncludes (hay needle : String) : Bool :=
  decide (needle.data <:+: hay.data)

/-- From `findMatches` / `sendMatchNotification`:
`candLabels.filter(label => itemLabels.some(l =>
  l.toLowerCase().includes(label.toLowerCase())))`. -/
def commonLabels (itemLabels candLabels : List String) : List String :=
  candLabels.filter (fun label =>
    itemLabels.any (fun l => jsIncludes (lowercase l) (lowercase label)))

/-- The similarity score computed at both call sites:
`(commonLabels.length / itemLabels.length) * 100`, as a rational. -/
def similarity (itemLabels candLabels : List String) : ℚ :=
  ((commonLabels itemLabels candLabels).length : ℚ) / (itemLabels.length : ℚ) * 100

/-- One entry of the `matches` array built by `findMatches`:
the candidate document together with its similarity score. -/
structure MatchResult where
  item : Item
  similarity : ℚ
deriving DecidableEq

/-- The `matches` array of `findMatches` before the final sort: for each
candidate of the pool, if `commonLabels.length > 0` and `similarity > 60`
the candidate is pushed with its score. -/
def matchesUnsorted (itemLabels : List String) (pool : List Item) : List MatchResult :=
  pool.filterMap (fun item =>
    let common := commonLabels itemLabels item.imageLabels
    if 0 < common.length then
      if 60 < similarity itemLabels item.imageLabels then
        some ⟨item, similarity itemLabels item.imageLabels⟩
      else none
    else none)

/-- The callable `findMatches`: collect the scored candidates, then
`matches.sort((a, b) => b.similarity - a.similarity)` — a stable sort,
descending by similarity (Array.prototype.sort is stable per ES2019). -/
def findMatches (itemLabels : List String) (pool : List Item) : List MatchResult :=
  (matchesUnsorted itemLabels pool).mergeSort
    (fun a b => decide (b.similarity ≤ a.similarity))

/-- A notification document written by `sendMatchNotification`, restricted
to the identifying fields (the free-text title and message are omitted). -/
structure MatchNotification where
  userId : String
  itemId : String
  matchedItemId : String
  read : Bool
  createdAt : Int
deriving DecidableEq

/-- The Firestore `onCreate` trigger `sendMatchNotification`: when a lost
item is created, scan the pool of unclaimed found items and write a
notification for each candidate with `commonLabels.length > 0` and
`similarity > 80`.  The pool is given as (document id, item) pairs; the
caller is responsible for it being the unclaimed found items. -/
def sendMatchNotification (newItemId : String) (newItem : Item)
    (foundPool : List (String × Item)) (now : Int) : List MatchNotification :=
  if newItem.type = ItemType.lost then
    foundPool.filterMap (fun p =>
      let common := commonLabels newItem.imageLabels p.2.imageLabels
      if 0 < common.length then
        if 80 < similarity newItem.imageLabels p.2.imageLabels then
          some ⟨p.2.userId, p.1, newItemId, false, now⟩
        else none
      else none)
  else []

/-- An OTP challenge document stored in the `otps` collection by
`sendClaimOTP`. -/
structure OtpData where
  otp : String
  itemId : String
  userId : String
  createdAt : Int
  expiresAt : Int
deriving DecidableEq

/-- The Firestore database as seen by the core: the `items` collection and
the `otps` collection, each a map from document id to an optional document. -/
structure Store where
  items : String → Option Item
  otps : String → Option OtpData

/-- The authenticated caller context (`context.auth`): uid and token email. -/
structure AuthContext where
  uid : String
  email : String
deriving DecidableEq

/-- Error codes of the `HttpsError`s thrown by the callable functions. -/
inductive HttpsErrorCode where
  | unauthenticated
  | notFound
  | invalidArgument
  | deadlineExceeded
  | internal
deriving DecidableEq

/-- Document id of the OTP challenge for an (item, claimant) pair:
the template string `itemId_uid`. -/
def otpKey (itemId uid : String) : String := itemId ++ "_" ++ uid

/-- The numeric value generated by `Math.floor(100000 + Math.random() * 900000)`,
with the `Math.random()` draw given as a rational `r`. -/
def genOtpVal (r : ℚ) : ℤ := ⌊(100000 : ℚ) + r * 900000⌋

/-- The generated OTP code string: `Math.floor(100000 + Math.random() * 900000).toString()`. -/
def genOtp (r : ℚ) : String := toString (genOtpVal r).toNat

/-- The callable `sendClaimOTP`: rejects unauthenticated callers, then
stores (overwriting) the challenge document for `itemId_uid` with a fresh
code and `expiresAt = now + 10 minutes`, and sends the code by email.
Email dispatch is an external collaborator modelled as succeeding; were it
to throw, the surrounding catch would surface `internal`.  Note the source
never reads the item document, so no status (or existence) check occurs. -/
def sendClaimOTP (st : Store) (auth : Option AuthContext)
    (itemId userEmail : String) (r : ℚ) (now : Int) :
    Except HttpsErrorCode Unit × Store :=
  match auth with
  | none => (.error .unauthenticated, st)
  | some a =>
      let key := otpKey itemId a.uid
      let d : OtpData :=
        ⟨genOtp r, itemId, a.uid, now, now + 10 * 60 * 1000⟩
      (.ok (), { st with otps := fun k => if k = key then some d else st.otps k })

/-- The body of the `try` block of `verifyClaimOTP`, returning the typed
error actually thrown on each failure path (before the catch collapses it):
`not-found` when no challenge document exists for the pair,
`invalid-argument` when the stored code differs from the submitted one,
`deadline-exceeded` when `expiresAt < now`; on success the item is updated
to claimed and the challenge document deleted.  A missing item document
makes the Firestore `update` reject, modelled as `notFound` (it is caught
and collapsed by the wrapper regardless).  Every failure path throws before
any write, so no store is produced on error. -/
def verifyClaimOTPBody (st : Store) (a : AuthContext)
    (itemId otp : String) (now : Int) : Except HttpsErrorCode Store :=
  let key := otpKey itemId a.uid
  match st.otps key with
  | none => .error .notFound
  | some d =>
      if d.otp ≠ otp then .error .invalidArgument
      else if d.expiresAt < now then .error .deadlineExceeded
      else
        match st.items itemId with
        | none => .error .notFound
        | some item =>
            .ok
              { items := fun k =>
                  if k = itemId then
                    some { item with
                            status := ItemStatus.claimed,
                            claimantId := some a.uid,
                            claimantEmail := some a.email,
                            claimedAt := some now }
                  else st.items k,
                otps := fun k => if k = key then none else st.otps k }

/-- The callable `verifyClaimOTP`: the unauthenticated check sits outside
the `try`; everything else runs inside it, and the `catch` rethrows every
failure as the single generic `HttpsError('internal', 'Failed to verify OTP')`.
The store component is the database after the call: failure paths perform
no write. -/
def verifyClaimOTP (st : Store) (auth : Option AuthContext)
    (itemId otp : String) (now : Int) :
    Except HttpsErrorCode Unit × Store :=
  match auth with
  | none => (.error .unauthenticated, st)
  | some a =>
      match verifyClaimOTPBody st a itemId otp now with
      | .ok st2 => (.ok (), st2)
      | .error _ => (.error .internal, st)

namespace ClaimPage

/-- From `ClaimPage.sendOtp` (src/pages/ClaimPage.tsx): the generated code
held in the `generatedOtp` component state.  Same formula as the server
side; no expiry is recorded anywhere in this flow. -/
def sendOtp (r : ℚ) : String := genOtp r

/-- From `ClaimPage.verifyOtp`: if the submitted code equals the code in
component state, write the item to claimed (merging the claimant fields);
otherwise do nothing.  The item document is not re-read, so its current
status is not consulted; a missing document makes `updateDoc` reject, the
catch shows a toast and no write happens. -/
def verifyOtp (st : Store) (generatedOtp otp : String) (user : AuthContext)
    (itemId : String) (now : Int) : Store :=
  if otp = generatedOtp then
    match st.items itemId with
    | none => st
    | some item =>
        { st with items := fun k =>
            if k = itemId then
              some { item with
                      status := ItemStatus.claimed,
                      claimantId := some user.uid,
                      claimantEmail := some user.email,
                      claimedAt := some now }
            else st.items k }
  else st

end ClaimPage

/-! ### Helper lemmas -/

/-- When no label survives the common-label filter the score is zero. -/
theorem similarity_of_common_nil {q ls : List String}
    (h : (commonLabels q ls).length = 0) : similarity q ls = 0 := by
  simp [similarity, h]

/-- A score above any positive bound forces a nonempty common-label list. -/
theorem common_pos_of_similarity_gt {q ls : List String} {b : ℚ}
    (hb : 0 < b) (h : b < similarity q ls) :
    0 < (commonLabels q ls).length := by
  rcases Nat.eq_zero_or_pos (commonLabels q ls).length with h0 | hpos
  · rw [similarity_of_common_nil h0] at h
    exact absurd (hb.trans h) (lt_irrefl 0)
  · exact hpos

end SmartLF

namespace SmartLF

/-! ### Claims about the Matcher -/

/-- C1: for a non-empty query label sequence, `commonLabels` consists of
exactly those candidate labels that occur, lowercased, as a substring of
some lowercased query label, and the similarity score is
`|commonLabels| / |queryLabels| * 100`. -/
theorem matcher_commonLabels_and_similarity (q : List String) (hq : q ≠ [])
    (cand : Item) :
    (∀ L, L ∈ commonLabels q cand.imageLabels ↔
      (L ∈ cand.imageLabels ∧ ∃ l ∈ q, (lowercase L).data <:+: (lowercase l).data))
    ∧ similarity q cand.imageLabels =
      ((commonLabels q cand.imageLabels).length : ℚ) / (q.length : ℚ) * 100 := by
  refine ⟨fun L => ?_, rfl⟩
  simp [commonLabels, jsIncludes, List.mem_filter]

/-- Witness for C1 at the worked example of the spec: query
`["Black iPhone"]` against candidate labels `["phone", "electronics"]`. -/
theorem matcher_commonLabels_and_similarity_witness :
    ("phone" ∈ commonLabels ["Black iPhone"]
        (Item.mk "u1" "u@x" ItemType.found "t" ["phone", "electronics"]
          ItemStatus.unclaimed none none none).imageLabels ↔
      ("phone" ∈ (Item.mk "u1" "u@x" ItemType.found "t" ["phone", "electronics"]
          ItemStatus.unclaimed none none none).imageLabels ∧
        ∃ l ∈ ["Black iPhone"], (lowercase "phone").data <:+: (lowercase l).data))
    ∧ similarity ["Black iPhone"] ["phone", "electronics"] =
      ((commonLabels ["Black iPhone"] ["phone", "electronics"]).length : ℚ)
        / ((["Black iPhone"] : List String).length : ℚ) * 100 :=
  ⟨(matcher_commonLabels_and_similarity ["Black iPhone"] (by decide)
      (Item.mk "u1" "u@x" ItemType.found "t" ["phone", "electronics"]
        ItemStatus.unclaimed none none none)).1 "phone",
   (matcher_commonLabels_and_similarity ["Black iPhone"] (by decide)
      (Item.mk "u1" "u@x" ItemType.found "t" ["phone", "electronics"]
        ItemStatus.unclaimed none none none)).2⟩

/-- C7: an empty query label sequence yields an empty match list (and in
this total model the similarity division is never evaluated at a zero
denominator: no candidate reaches it). -/
theorem findMatches_empty_query (pool : List Item) :
    findMatches [] pool = [] := by
  have h : matchesUnsorted [] pool = [] := by
    induction pool with
    | nil => rfl
    | cons a t ih =>
        have step : matchesUnsorted [] (a :: t) = matchesUnsorted [] t := by
          simp [matchesUnsorted, List.filterMap_cons, commonLabels]
        rw [step, ih]
  rw [findMatches, h, List.mergeSort_nil]

/-- C6: a candidate of the pool appears in the `findMatches` result iff
its similarity exceeds 60; the automatic new-posting notification path
notifies exactly the found items whose similarity exceeds 80; the
`findMatches` result is sorted non-increasing by similarity; and candidates
of equal similarity keep their input relative order (stability). -/
theorem findMatches_thresholds_sorted_stable (q : List String) (pool : List Item) :
    (∀ c ∈ pool,
      ((∃ m ∈ findMatches q pool, m.item = c) ↔ 60 < similarity q c.imageLabels))
    ∧ (∀ (newItemId : String) (newItem : Item)
        (foundPool : List (String × Item)) (now : Int),
        newItem.type = ItemType.lost →
        sendMatchNotification newItemId newItem foundPool now =
          (foundPool.filter (fun p =>
              decide (80 < similarity newItem.imageLabels p.2.imageLabels))).map
            (fun p => ⟨p.2.userId, p.1, newItemId, false, now⟩))
    ∧ (findMatches q pool).Pairwise (fun m1 m2 => m2.similarity ≤ m1.similarity)
    ∧ (∀ v : ℚ,
        (findMatches q pool).filter (fun m => decide (m.similarity = v)) =
          (matchesUnsorted q pool).filter (fun m => decide (m.similarity = v))) := by
  have htrans : ∀ a b c : MatchResult,
      decide (b.similarity ≤ a.similarity) = true →
      decide (c.similarity ≤ b.similarity) = true →
      decide (c.similarity ≤ a.similarity) = true := by
    intro a b c h1 h2
    simp only [decide_eq_true_eq] at h1 h2 ⊢
    exact le_trans h2 h1
  have htotal : ∀ a b : MatchResult,
      (decide (b.similarity ≤ a.similarity) || decide (a.similarity ≤ b.similarity)) = true := by
    intro a b
    simp only [Bool.or_eq_true, decide_eq_true_eq]
    exact le_total _ _
  refine ⟨?_, ?_, ?_, ?_⟩
  · intro c hc
    constructor
    · rintro ⟨m, hm, hmc⟩
      rw [findMatches, List.mem_mergeSort] at hm
      simp only [matchesUnsorted, List.mem_filterMap] at hm
      obtain ⟨a, ha, hfa⟩ := hm
      by_cases h1 : 0 < (commonLabels q a.imageLabels).length
      · rw [if_pos h1] at hfa
        by_cases h2 : 60 < similarity q a.imageLabels
        · rw [if_pos h2] at hfa
          have hma : (⟨a, similarity q a.imageLabels⟩ : MatchResult) = m :=
            Option.some.inj hfa
          have hac : a = c := by
            have := congrArg MatchResult.item hma
            rw [← hmc]
            exact this
          rw [← hac]
          exact h2
        · rw [if_neg h2] at hfa
          exact absurd hfa (by simp)
      · rw [if_neg h1] at hfa
        exact absurd hfa (by simp)
    · intro h60
      have h1 : 0 < (commonLabels q c.imageLabels).length :=
        common_pos_of_similarity_gt (by norm_num) h60
      refine ⟨⟨c, similarity q c.imageLabels⟩, ?_, rfl⟩
      rw [findMatches, List.mem_mergeSort, matchesUnsorted]
      exact List.mem_filterMap.mpr ⟨c, hc, by simp [h1, h60]⟩
  · intro nid ni fp now htype
    rw [sendMatchNotification, if_pos htype]
    induction fp with
    | nil => rfl
    | cons p t ih =>
        by_cases h80 : 80 < similarity ni.imageLabels p.2.imageLabels
        · have h1 : 0 < (commonLabels ni.imageLabels p.2.imageLabels).length :=
            common_pos_of_similarity_gt (by norm_num) h80
          simp only [List.filterMap_cons, List.filter_cons]
          rw [if_pos h1, if_pos h80]
          have hfilt : decide (80 < similarity ni.imageLabels p.2.imageLabels) = true := by
            simpa using h80
          rw [hfilt]
          simp only [List.map_cons, if_pos]
          rw [ih]
        · simp only [List.filterMap_cons, List.filter_cons]
          have hnone :
              (if 0 < (commonLabels ni.imageLabels p.2.imageLabels).length then
                if 80 < similarity ni.imageLabels p.2.imageLabels then
                  some (⟨p.2.userId, p.1, nid, false, now⟩ : MatchNotification)
                else none
              else none) = none := by
            rw [if_neg h80]
            exact ite_self none
          rw [hnone]
          have hfilt : decide (80 < similarity ni.imageLabels p.2.imageLabels) = false := by
            simpa using h80
          rw [hfilt]
          simpa using ih
  · rw [findMatches]
    exact (List.sorted_mergeSort htrans htotal (matchesUnsorted q pool)).imp
      (fun h => of_decide_eq_true h)
  · intro v
    have hmemv : ∀ m ∈ (matchesUnsorted q pool).filter
        (fun m => decide (m.similarity = v)), m.similarity = v := by
      intro m hm
      exact of_decide_eq_true (List.mem_filter.mp hm).2
    have hpair : ((matchesUnsorted q pool).filter
        (fun m => decide (m.similarity = v))).Pairwise
        (fun a b => decide (b.similarity ≤ a.similarity) = true) := by
      apply List.pairwise_of_forall_mem_list
      intro a ha b hb
      rw [hmemv a ha, hmemv b hb]
      simp
    have hsub : List.Sublist
        ((matchesUnsorted q pool).filter (fun m => decide (m.similarity = v)))
        (findMatches q pool) := by
      rw [findMatches]
      exact List.sublist_mergeSort htrans htotal hpair (List.filter_sublist _)
    have h2 : List.Sublist
        ((matchesUnsorted q pool).filter (fun m => decide (m.similarity = v)))
        ((findMatches q pool).filter (fun m => decide (m.similarity = v))) := by
      have h3 := List.Sublist.filter (fun m => decide (m.similarity = v)) hsub
      rw [List.filter_filter] at h3
      simpa using h3
    have hlen : ((findMatches q pool).filter (fun m => decide (m.similarity = v))).length
        = ((matchesUnsorted q pool).filter (fun m => decide (m.similarity = v))).length :=
      ((List.mergeSort_perm (matchesUnsorted q pool) _).filter _).length_eq
    exact (h2.eq_of_length hlen.symm).symm

/-- Witness for C6: the membership characterisation at a one-element pool
and the notification characterisation at a one-element found pool. -/
theorem findMatches_thresholds_sorted_stable_witness :
    ((∃ m ∈ findMatches ["Black iPhone"]
        [Item.mk "u1" "e1" ItemType.found "Wallet" ["phone", "electronics"]
          ItemStatus.unclaimed none none none], m.item =
        Item.mk "u1" "e1" ItemType.found "Wallet" ["phone", "electronics"]
          ItemStatus.unclaimed none none none) ↔
      60 < similarity ["Black iPhone"]
        (Item.mk "u1" "e1" ItemType.found "Wallet" ["phone", "electronics"]
          ItemStatus.unclaimed none none none).imageLabels)
    ∧ sendMatchNotification "n1"
        (Item.mk "u2" "e2" ItemType.lost "Lost phone" ["Black iPhone"]
          ItemStatus.unclaimed none none none)
        [("f1", Item.mk "u1" "e1" ItemType.found "Wallet" ["phone", "electronics"]
          ItemStatus.unclaimed none none none)] 0 =
      ([("f1", Item.mk "u1" "e1" ItemType.found "Wallet" ["phone", "electronics"]
          ItemStatus.unclaimed none none none)].filter (fun p =>
          decide (80 < similarity
            (Item.mk "u2" "e2" ItemType.lost "Lost phone" ["Black iPhone"]
              ItemStatus.unclaimed none none none).imageLabels p.2.imageLabels))).map
        (fun p => ⟨p.2.userId, p.1, "n1", false, 0⟩) :=
  ⟨(findMatches_thresholds_sorted_stable ["Black iPhone"]
      [Item.mk "u1" "e1" ItemType.found "Wallet" ["phone", "electronics"]
        ItemStatus.unclaimed none none none]).1
      (Item.mk "u1" "e1" ItemType.found "Wallet" ["phone", "electronics"]
        ItemStatus.unclaimed none none none) (by simp),
   (findMatches_thresholds_sorted_stable ["Black iPhone"]
      [Item.mk "u1" "e1" ItemType.found "Wallet" ["phone", "electronics"]
        ItemStatus.unclaimed none none none]).2.1 "n1"
      (Item.mk "u2" "e2" ItemType.lost "Lost phone" ["Black iPhone"]
        ItemStatus.unclaimed none none none)
      [("f1", Item.mk "u1" "e1" ItemType.found "Wallet" ["phone", "electronics"]
        ItemStatus.unclaimed none none none)] 0 rfl⟩

/-! ### Claims about the claim-verification flow -/

/-- C2 counterexample: on a store whose item `i1` is already claimed (and
with a live matching challenge), `sendClaimOTP` succeeds and stores a fresh
challenge, and `verifyClaimOTP` succeeds and re-claims the item — neither
fails, let alone with an AlreadyClaimed error. -/
theorem sendClaimOTP_claimed_item_counterexample :
    (sendClaimOTP
      (Store.mk
        (fun k => if k = "i1" then
          some (Item.mk "owner" "o@x" ItemType.found "Bag" ["bag"]
            ItemStatus.claimed (some "c0") (some "c0@x") (some 0)) else none)
        (fun k => if k = "i1_u1" then
          some (OtpData.mk "123456" "i1" "u1" 0 100) else none))
      (some (AuthContext.mk "u1" "u1@x")) "i1" "u1@x" (1/2) 0).1 = Except.ok ()
    ∧ ((sendClaimOTP
      (Store.mk
        (fun k => if k = "i1" then
          some (Item.mk "owner" "o@x" ItemType.found "Bag" ["bag"]
            ItemStatus.claimed (some "c0") (some "c0@x") (some 0)) else none)
        (fun k => if k = "i1_u1" then
          some (OtpData.mk "123456" "i1" "u1" 0 100) else none))
      (some (AuthContext.mk "u1" "u1@x")) "i1" "u1@x" (1/2) 0).2.otps "i1_u1").isSome = true
    ∧ (verifyClaimOTP
      (Store.mk
        (fun k => if k = "i1" then
          some (Item.mk "owner" "o@x" ItemType.found "Bag" ["bag"]
            ItemStatus.claimed (some "c0") (some "c0@x") (some 0)) else none)
        (fun k => if k = "i1_u1" then
          some (OtpData.mk "123456" "i1" "u1" 0 100) else none))
      (some (AuthContext.mk "u1" "u1@x")) "i1" "123456" 5).1 = Except.ok ()
    ∧ (verifyClaimOTP
      (Store.mk
        (fun k => if k = "i1" then
          some (Item.mk "owner" "o@x" ItemType.found "Bag" ["bag"]
            ItemStatus.claimed (some "c0") (some "c0@x") (some 0)) else none)
        (fun k => if k = "i1_u1" then
          some (OtpData.mk "123456" "i1" "u1" 0 100) else none))
      (some (AuthContext.mk "u1" "u1@x")) "i1" "123456" 5).2.items "i1" =
      some (Item.mk "owner" "o@x" ItemType.found "Bag" ["bag"]
        ItemStatus.claimed (some "u1") (some "u1@x") (some 5)) :=
  ⟨rfl, rfl, rfl, rfl⟩

/-- C2 amended: neither operation reads the item status.  For an item of
any status other than unclaimed, `sendClaimOTP` still succeeds and stores a
fresh challenge, and `verifyClaimOTP` with a matching unexpired code still
succeeds and overwrites the item to claimed. -/
theorem claim_ops_ignore_item_status (st : Store) (a : AuthContext)
    (itemId email : String) (r : ℚ) (now : Int) (item : Item) (d : OtpData)
    (hitem : st.items itemId = some item)
    (hstat : item.status ≠ ItemStatus.unclaimed)
    (hotp : st.otps (otpKey itemId a.uid) = some d)
    (hexp : ¬ d.expiresAt < now) :
    (sendClaimOTP st (some a) itemId email r now).1 = Except.ok ()
    ∧ (sendClaimOTP st (some a) itemId email r now).2.otps (otpKey itemId a.uid) =
        some (OtpData.mk (genOtp r) itemId a.uid now (now + 10 * 60 * 1000))
    ∧ (verifyClaimOTP st (some a) itemId d.otp now).1 = Except.ok ()
    ∧ (verifyClaimOTP st (some a) itemId d.otp now).2.items itemId =
        some { item with
               status := ItemStatus.claimed,
               claimantId := some a.uid,
               claimantEmail := some a.email,
               claimedAt := some now } := by
  refine ⟨rfl, by simp [sendClaimOTP], ?_, ?_⟩
  · simp [verifyClaimOTP, verifyClaimOTPBody, hotp, hitem, hexp]
  · simp [verifyClaimOTP, verifyClaimOTPBody, hotp, hitem, hexp]

/-- Witness for the amended C2 at a concrete pending item. -/
theorem claim_ops_ignore_item_status_witness :
    (Store.mk
      (fun k => if k = "i1" then
        some (Item.mk "owner" "o@x" ItemType.found "Bag" ["bag"]
          ItemStatus.pending none none none) else none)
      (fun k => if k = "i1_u1" then
        some (OtpData.mk "123456" "i1" "u1" 0 100) else none)).items "i1" =
      some (Item.mk "owner" "o@x" ItemType.found "Bag" ["bag"]
        ItemStatus.pending none none none)
    ∧ ((sendClaimOTP
        (Store.mk
          (fun k => if k = "i1" then
            some (Item.mk "owner" "o@x" ItemType.found "Bag" ["bag"]
              ItemStatus.pending none none none) else none)
          (fun k => if k = "i1_u1" then
            some (OtpData.mk "123456" "i1" "u1" 0 100) else none))
        (some (AuthContext.mk "u1" "u1@x")) "i1" "e@x" (1/2) 7).1 = Except.ok ()
      ∧ (sendClaimOTP
        (Store.mk
          (fun k => if k = "i1" then
            some (Item.mk "owner" "o@x" ItemType.found "Bag" ["bag"]
              ItemStatus.pending none none none) else none)
          (fun k => if k = "i1_u1" then
            some (OtpData.mk "123456" "i1" "u1" 0 100) else none))
        (some (AuthContext.mk "u1" "u1@x")) "i1" "e@x" (1/2) 7).2.otps
          (otpKey "i1" "u1") =
        some (OtpData.mk (genOtp (1/2)) "i1" "u1" 7 (7 + 10 * 60 * 1000))
      ∧ (verifyClaimOTP
        (Store.mk
          (fun k => if k = "i1" then
            some (Item.mk "owner" "o@x" ItemType.found "Bag" ["bag"]
              ItemStatus.pending none none none) else none)
          (fun k => if k = "i1_u1" then
            some (OtpData.mk "123456" "i1" "u1" 0 100) else none))
        (some (AuthContext.mk "u1" "u1@x")) "i1"
          (OtpData.mk "123456" "i1" "u1" 0 100).otp 7).1 = Except.ok ()
      ∧ (verifyClaimOTP
        (Store.mk
          (fun k => if k = "i1" then
            some (Item.mk "owner" "o@x" ItemType.found "Bag" ["bag"]
              ItemStatus.pending none none none) else none)
          (fun k => if k = "i1_u1" then
            some (OtpData.mk "123456" "i1" "u1" 0 100) else none))
        (some (AuthContext.mk "u1" "u1@x")) "i1"
          (OtpData.mk "123456" "i1" "u1" 0 100).otp 7).2.items "i1" =
        some { Item.mk "owner" "o@x" ItemType.found "Bag" ["bag"]
                ItemStatus.pending none none none with
               status := ItemStatus.claimed,
               claimantId := some "u1",
               claimantEmail := some "u1@x",
               claimedAt := some (7 : Int) }) :=
  ⟨rfl,
   claim_ops_ignore_item_status
     (Store.mk
       (fun k => if k = "i1" then
         some (Item.mk "owner" "o@x" ItemType.found "Bag" ["bag"]
           ItemStatus.pending none none none) else none)
       (fun k => if k = "i1_u1" then
         some (OtpData.mk "123456" "i1" "u1" 0 100) else none))
     (AuthContext.mk "u1" "u1@x") "i1" "e@x" (1/2) 7
     (Item.mk "owner" "o@x" ItemType.found "Bag" ["bag"]
       ItemStatus.pending none none none)
     (OtpData.mk "123456" "i1" "u1" 0 100)
     rfl (by decide) rfl (by decide)⟩

/-- C3 (code bug): every typed error thrown inside the `try` of
`verifyClaimOTP` — `not-found`, `invalid-argument`, `deadline-exceeded` —
is caught by the surrounding `catch` and rethrown as the single generic
`internal` error, so the caller never sees the distinct causes. -/
theorem verifyClaimOTP_collapses_errors :
    verifyClaimOTPBody (Store.mk (fun _ => none) (fun _ => none))
      (AuthContext.mk "u1" "u1@x") "i1" "123456" 0 =
      Except.error HttpsErrorCode.notFound
    ∧ (verifyClaimOTP (Store.mk (fun _ => none) (fun _ => none))
      (some (AuthContext.mk "u1" "u1@x")) "i1" "123456" 0).1 =
      Except.error HttpsErrorCode.internal
    ∧ verifyClaimOTPBody
      (Store.mk
        (fun k => if k = "i1" then
          some (Item.mk "o" "o@x" ItemType.found "Bag" ["bag"]
            ItemStatus.unclaimed none none none) else none)
        (fun k => if k = "i1_u1" then
          some (OtpData.mk "111111" "i1" "u1" 0 100) else none))
      (AuthContext.mk "u1" "u1@x") "i1" "999999" 5 =
      Except.error HttpsErrorCode.invalidArgument
    ∧ (verifyClaimOTP
      (Store.mk
        (fun k => if k = "i1" then
          some (Item.mk "o" "o@x" ItemType.found "Bag" ["bag"]
            ItemStatus.unclaimed none none none) else none)
        (fun k => if k = "i1_u1" then
          some (OtpData.mk "111111" "i1" "u1" 0 100) else none))
      (some (AuthContext.mk "u1" "u1@x")) "i1" "999999" 5).1 =
      Except.error HttpsErrorCode.internal
    ∧ verifyClaimOTPBody
      (Store.mk
        (fun k => if k = "i1" then
          some (Item.mk "o" "o@x" ItemType.found "Bag" ["bag"]
            ItemStatus.unclaimed none none none) else none)
        (fun k => if k = "i1_u1" then
          some (OtpData.mk "111111" "i1" "u1" 0 100) else none))
      (AuthContext.mk "u1" "u1@x") "i1" "111111" 200 =
      Except.error HttpsErrorCode.deadlineExceeded
    ∧ (verifyClaimOTP
      (Store.mk
        (fun k => if k = "i1" then
          some (Item.mk "o" "o@x" ItemType.found "Bag" ["bag"]
            ItemStatus.unclaimed none none none) else none)
        (fun k => if k = "i1_u1" then
          some (OtpData.mk "111111" "i1" "u1" 0 100) else none))
      (some (AuthContext.mk "u1" "u1@x")) "i1" "111111" 200).1 =
      Except.error HttpsErrorCode.internal :=
  ⟨rfl, rfl, rfl, rfl, rfl, rfl⟩

/-- C4 counterexample: on an expired challenge with stored code `111111`,
submitting the wrong code `222222` fails with the Mismatch error
(`invalid-argument`), not the Expired error: the code-mismatch check runs
before the expiry check. -/
theorem verify_expired_wrong_code_counterexample :
    verifyClaimOTPBody
      (Store.mk
        (fun k => if k = "i1" then
          some (Item.mk "o" "o@x" ItemType.found "Bag" ["bag"]
            ItemStatus.unclaimed none none none) else none)
        (fun k => if k = "i1_u1" then
          some (OtpData.mk "111111" "i1" "u1" 0 10) else none))
      (AuthContext.mk "u1" "u1@x") "i1" "222222" 50 =
      Except.error HttpsErrorCode.invalidArgument
    ∧ verifyClaimOTPBody
      (Store.mk
        (fun k => if k = "i1" then
          some (Item.mk "o" "o@x" ItemType.found "Bag" ["bag"]
            ItemStatus.unclaimed none none none) else none)
        (fun k => if k = "i1_u1" then
          some (OtpData.mk "111111" "i1" "u1" 0 10) else none))
      (AuthContext.mk "u1" "u1@x") "i1" "222222" 50 ≠
      Except.error HttpsErrorCode.deadlineExceeded := by
  refine ⟨rfl, ?_⟩
  intro hcontra
  have h : (Except.error HttpsErrorCode.invalidArgument : Except HttpsErrorCode Store) =
      Except.error HttpsErrorCode.deadlineExceeded := hcontra
  injection h with h2
  exact HttpsErrorCode.noConfusion h2

/-- C4 amended: on an expired challenge, `verifyClaimOTP` with the correct
code fails with the Expired error, while a wrong code fails with the
Mismatch error first (the mismatch check precedes the expiry check); in
either case no write happens: the store is unchanged and the expired
challenge is not deleted. -/
theorem verify_expired_precedence (st : Store) (a : AuthContext)
    (itemId code : String) (now : Int) (d : OtpData)
    (hotp : st.otps (otpKey itemId a.uid) = some d)
    (hexp : d.expiresAt < now) :
    (d.otp = code → verifyClaimOTPBody st a itemId code now =
      Except.error HttpsErrorCode.deadlineExceeded)
    ∧ (d.otp ≠ code → verifyClaimOTPBody st a itemId code now =
      Except.error HttpsErrorCode.invalidArgument)
    ∧ (verifyClaimOTP st (some a) itemId code now).2 = st
    ∧ (verifyClaimOTP st (some a) itemId code now).2.otps (otpKey itemId a.uid) =
      some d := by
  have hcorrect : d.otp = code → verifyClaimOTPBody st a itemId code now =
      Except.error HttpsErrorCode.deadlineExceeded := by
    intro heq
    simp [verifyClaimOTPBody, hotp, heq, hexp]
  have hwrong : d.otp ≠ code → verifyClaimOTPBody st a itemId code now =
      Except.error HttpsErrorCode.invalidArgument := by
    intro hne
    simp [verifyClaimOTPBody, hotp, hne]
  have hstore : (verifyClaimOTP st (some a) itemId code now).2 = st := by
    by_cases hc : d.otp = code
    · simp [verifyClaimOTP, hcorrect hc]
    · simp [verifyClaimOTP, hwrong hc]
  refine ⟨hcorrect, hwrong, hstore, ?_⟩
  rw [hstore]
  exact hotp

/-- Witness for the amended C4 at a concrete expired challenge. -/
theorem verify_expired_precedence_witness :
    (Store.mk
      (fun k => if k = "i1" then
        some (Item.mk "o" "o@x" ItemType.found "Bag" ["bag"]
          ItemStatus.unclaimed none none none) else none)
      (fun k => if k = "i1_u1" then
        some (OtpData.mk "111111" "i1" "u1" 0 10) else none)).otps
      (otpKey "i1" "u1") = some (OtpData.mk "111111" "i1" "u1" 0 10)
    ∧ (((OtpData.mk "111111" "i1" "u1" 0 10).expiresAt < (50 : Int))
    ∧ (((OtpData.mk "111111" "i1" "u1" 0 10).otp = "111111" →
        verifyClaimOTPBody
          (Store.mk
            (fun k => if k = "i1" then
              some (Item.mk "o" "o@x" ItemType.found "Bag" ["bag"]
                ItemStatus.unclaimed none none none) else none)
            (fun k => if k = "i1_u1" then
              some (OtpData.mk "111111" "i1" "u1" 0 10) else none))
          (AuthContext.mk "u1" "u1@x") "i1" "111111" 50 =
          Except.error HttpsErrorCode.deadlineExceeded)
      ∧ ((OtpData.mk "111111" "i1" "u1" 0 10).otp ≠ "111111" →
        verifyClaimOTPBody
          (Store.mk
            (fun k => if k = "i1" then
              some (Item.mk "o" "o@x" ItemType.found "Bag" ["bag"]
                ItemStatus.unclaimed none none none) else none)
            (fun k => if k = "i1_u1" then
              some (OtpData.mk "111111" "i1" "u1" 0 10) else none))
          (AuthContext.mk "u1" "u1@x") "i1" "111111" 50 =
          Except.error HttpsErrorCode.invalidArgument)
      ∧ (verifyClaimOTP
          (Store.mk
            (fun k => if k = "i1" then
              some (Item.mk "o" "o@x" ItemType.found "Bag" ["bag"]
                ItemStatus.unclaimed none none none) else none)
            (fun k => if k = "i1_u1" then
              some (OtpData.mk "111111" "i1" "u1" 0 10) else none))
          (some (AuthContext.mk "u1" "u1@x")) "i1" "111111" 50).2 =
          Store.mk
            (fun k => if k = "i1" then
              some (Item.mk "o" "o@x" ItemType.found "Bag" ["bag"]
                ItemStatus.unclaimed none none none) else none)
            (fun k => if k = "i1_u1" then
              some (OtpData.mk "111111" "i1" "u1" 0 10) else none)
      ∧ (verifyClaimOTP
          (Store.mk
            (fun k => if k = "i1" then
              some (Item.mk "o" "o@x" ItemType.found "Bag" ["bag"]
                ItemStatus.unclaimed none none none) else none)
            (fun k => if k = "i1_u1" then
              some (OtpData.mk "111111" "i1" "u1" 0 10) else none))
          (some (AuthContext.mk "u1" "u1@x")) "i1" "111111" 50).2.otps
          (otpKey "i1" "u1") = some (OtpData.mk "111111" "i1" "u1" 0 10))) :=
  ⟨rfl, by decide,
   verify_expired_precedence
     (Store.mk
       (fun k => if k = "i1" then
         some (Item.mk "o" "o@x" ItemType.found "Bag" ["bag"]
           ItemStatus.unclaimed none none none) else none)
       (fun k => if k = "i1_u1" then
         some (OtpData.mk "111111" "i1" "u1" 0 10) else none))
     (AuthContext.mk "u1" "u1@x") "i1" "111111" 50
     (OtpData.mk "111111" "i1" "u1" 0 10) rfl (by decide)⟩

/-- C5: a successful `sendClaimOTP` followed by `verifyClaimOTP` for the
same (item, claimant) pair with the exact generated code, before the
10-minute expiry, succeeds: the item becomes claimed with claimant
reference and claim time set, and the challenge document is deleted. -/
theorem issue_then_verify_succeeds (st : Store) (a : AuthContext)
    (itemId userEmail : String) (r : ℚ) (now now2 : Int) (item : Item)
    (hitem : st.items itemId = some item)
    (hexp : now2 < now + 10 * 60 * 1000) :
    (sendClaimOTP st (some a) itemId userEmail r now).1 = Except.ok ()
    ∧ (verifyClaimOTP (sendClaimOTP st (some a) itemId userEmail r now).2
        (some a) itemId (genOtp r) now2).1 = Except.ok ()
    ∧ (verifyClaimOTP (sendClaimOTP st (some a) itemId userEmail r now).2
        (some a) itemId (genOtp r) now2).2.items itemId =
        some { item with
               status := ItemStatus.claimed,
               claimantId := some a.uid,
               claimantEmail := some a.email,
               claimedAt := some now2 }
    ∧ (verifyClaimOTP (sendClaimOTP st (some a) itemId userEmail r now).2
        (some a) itemId (genOtp r) now2).2.otps (otpKey itemId a.uid) = none := by
  have hnexp : ¬ (now + 600000 < now2) := by omega
  refine ⟨rfl, ?_, ?_, ?_⟩
  · simp [verifyClaimOTP, verifyClaimOTPBody, sendClaimOTP, hitem, hnexp]
  · simp [verifyClaimOTP, verifyClaimOTPBody, sendClaimOTP, hitem, hnexp]
  · simp [verifyClaimOTP, verifyClaimOTPBody, sendClaimOTP, hitem, hnexp]

/-- Witness for C5 at a concrete unclaimed item and random draw 1/2. -/
theorem issue_then_verify_succeeds_witness :
    (Store.mk
      (fun k => if k = "i1" then
        some (Item.mk "o" "o@x" ItemType.found "Bag" ["bag"]
          ItemStatus.unclaimed none none none) else none)
      (fun _ => none)).items "i1" =
      some (Item.mk "o" "o@x" ItemType.found "Bag" ["bag"]
        ItemStatus.unclaimed none none none)
    ∧ ((1 : Int) < 0 + 10 * 60 * 1000)
    ∧ ((sendClaimOTP
        (Store.mk
          (fun k => if k = "i1" then
            some (Item.mk "o" "o@x" ItemType.found "Bag" ["bag"]
              ItemStatus.unclaimed none none none) else none)
          (fun _ => none))
        (some (AuthContext.mk "u1" "u1@x")) "i1" "u1@x" (1/2) 0).1 = Except.ok ()
      ∧ (verifyClaimOTP (sendClaimOTP
          (Store.mk
            (fun k => if k = "i1" then
              some (Item.mk "o" "o@x" ItemType.found "Bag" ["bag"]
                ItemStatus.unclaimed none none none) else none)
            (fun _ => none))
          (some (AuthContext.mk "u1" "u1@x")) "i1" "u1@x" (1/2) 0).2
          (some (AuthContext.mk "u1" "u1@x")) "i1" (genOtp (1/2)) 1).1 = Except.ok ()
      ∧ (verifyClaimOTP (sendClaimOTP
          (Store.mk
            (fun k => if k = "i1" then
              some (Item.mk "o" "o@x" ItemType.found "Bag" ["bag"]
                ItemStatus.unclaimed none none none) else none)
            (fun _ => none))
          (some (AuthContext.mk "u1" "u1@x")) "i1" "u1@x" (1/2) 0).2
          (some (AuthContext.mk "u1" "u1@x")) "i1" (genOtp (1/2)) 1).2.items "i1" =
        some { Item.mk "o" "o@x" ItemType.found "Bag" ["bag"]
                ItemStatus.unclaimed none none none with
               status := ItemStatus.claimed,
               claimantId := some "u1",
               claimantEmail := some "u1@x",
               claimedAt := some (1 : Int) }
      ∧ (verifyClaimOTP (sendClaimOTP
          (Store.mk
            (fun k => if k = "i1" then
              some (Item.mk "o" "o@x" ItemType.found "Bag" ["bag"]
                ItemStatus.unclaimed none none none) else none)
            (fun _ => none))
          (some (AuthContext.mk "u1" "u1@x")) "i1" "u1@x" (1/2) 0).2
          (some (AuthContext.mk "u1" "u1@x")) "i1" (genOtp (1/2)) 1).2.otps
          (otpKey "i1" "u1") = none) :=
  ⟨rfl, by decide,
   issue_then_verify_succeeds
     (Store.mk
       (fun k => if k = "i1" then
         some (Item.mk "o" "o@x" ItemType.found "Bag" ["bag"]
           ItemStatus.unclaimed none none none) else none)
       (fun _ => none))
     (AuthContext.mk "u1" "u1@x") "i1" "u1@x" (1/2) 0 1
     (Item.mk "o" "o@x" ItemType.found "Bag" ["bag"]
       ItemStatus.unclaimed none none none)
     rfl (by decide)⟩

/-- C8: on a live unexpired challenge, submitting a wrong code fails with
the Mismatch error (`invalid-argument`); the database is unchanged, the
challenge document (code and expiry included) is still present, and the
stored code keeps working: any later call before expiry with the correct
code succeeds. -/
theorem verify_mismatch_unchanged (st : Store) (a : AuthContext)
    (itemId code : String) (now : Int) (d : OtpData) (item : Item)
    (hotp : st.otps (otpKey itemId a.uid) = some d)
    (hexp : ¬ d.expiresAt < now)
    (hne : d.otp ≠ code)
    (hitem : st.items itemId = some item) :
    verifyClaimOTPBody st a itemId code now = Except.error HttpsErrorCode.invalidArgument
    ∧ (verifyClaimOTP st (some a) itemId code now).2 = st
    ∧ (verifyClaimOTP st (some a) itemId code now).2.otps (otpKey itemId a.uid) = some d
    ∧ ∀ now2 : Int, ¬ d.expiresAt < now2 →
        ∃ st2, verifyClaimOTPBody st a itemId d.otp now2 = Except.ok st2 := by
  have hbody : verifyClaimOTPBody st a itemId code now =
      Except.error HttpsErrorCode.invalidArgument := by
    simp [verifyClaimOTPBody, hotp, hne]
  have hstore : (verifyClaimOTP st (some a) itemId code now).2 = st := by
    simp [verifyClaimOTP, hbody]
  refine ⟨hbody, hstore, ?_, ?_⟩
  · rw [hstore]
    exact hotp
  · intro now2 h2
    refine ⟨Store.mk
      (fun k =>
        if k = itemId then
          some { item with
                 status := ItemStatus.claimed,
                 claimantId := some a.uid,
                 claimantEmail := some a.email,
                 claimedAt := some now2 }
        else st.items k)
      (fun k => if k = otpKey itemId a.uid then none else st.otps k), ?_⟩
    simp [verifyClaimOTPBody, hotp, hitem, h2]

/-- Witness for C8 at a concrete live challenge and wrong code. -/
theorem verify_mismatch_unchanged_witness :
    (Store.mk
      (fun k => if k = "i1" then
        some (Item.mk "o" "o@x" ItemType.found "Bag" ["bag"]
          ItemStatus.unclaimed none none none) else none)
      (fun k => if k = "i1_u1" then
        some (OtpData.mk "111111" "i1" "u1" 0 100) else none)).otps
      (otpKey "i1" "u1") = some (OtpData.mk "111111" "i1" "u1" 0 100)
    ∧ ¬ ((OtpData.mk "111111" "i1" "u1" 0 100).expiresAt < (5 : Int))
    ∧ (OtpData.mk "111111" "i1" "u1" 0 100).otp ≠ "999999"
    ∧ (verifyClaimOTPBody
        (Store.mk
          (fun k => if k = "i1" then
            some (Item.mk "o" "o@x" ItemType.found "Bag" ["bag"]
              ItemStatus.unclaimed none none none) else none)
          (fun k => if k = "i1_u1" then
            some (OtpData.mk "111111" "i1" "u1" 0 100) else none))
        (AuthContext.mk "u1" "u1@x") "i1" "999999" 5 =
        Except.error HttpsErrorCode.invalidArgument
      ∧ (verifyClaimOTP
        (Store.mk
          (fun k => if k = "i1" then
            some (Item.mk "o" "o@x" ItemType.found "Bag" ["bag"]
              ItemStatus.unclaimed none none none) else none)
          (fun k => if k = "i1_u1" then
            some (OtpData.mk "111111" "i1" "u1" 0 100) else none))
        (some (AuthContext.mk "u1" "u1@x")) "i1" "999999" 5).2 =
        Store.mk
          (fun k => if k = "i1" then
            some (Item.mk "o" "o@x" ItemType.found "Bag" ["bag"]
              ItemStatus.unclaimed none none none) else none)
          (fun k => if k = "i1_u1" then
            some (OtpData.mk "111111" "i1" "u1" 0 100) else none)
      ∧ (verifyClaimOTP
        (Store.mk
          (fun k => if k = "i1" then
            some (Item.mk "o" "o@x" ItemType.found "Bag" ["bag"]
              ItemStatus.unclaimed none none none) else none)
          (fun k => if k = "i1_u1" then
            some (OtpData.mk "111111" "i1" "u1" 0 100) else none))
        (some (AuthContext.mk "u1" "u1@x")) "i1" "999999" 5).2.otps
        (otpKey "i1" "u1") = some (OtpData.mk "111111" "i1" "u1" 0 100)
      ∧ ∀ now2 : Int, ¬ (OtpData.mk "111111" "i1" "u1" 0 100).expiresAt < now2 →
          ∃ st2, verifyClaimOTPBody
            (Store.mk
              (fun k => if k = "i1" then
                some (Item.mk "o" "o@x" ItemType.found "Bag" ["bag"]
                  ItemStatus.unclaimed none none none) else none)
              (fun k => if k = "i1_u1" then
                some (OtpData.mk "111111" "i1" "u1" 0 100) else none))
            (AuthContext.mk "u1" "u1@x") "i1"
            (OtpData.mk "111111" "i1" "u1" 0 100).otp now2 = Except.ok st2) :=
  ⟨rfl, by decide, by decide,
   verify_mismatch_unchanged
     (Store.mk
       (fun k => if k = "i1" then
         some (Item.mk "o" "o@x" ItemType.found "Bag" ["bag"]
           ItemStatus.unclaimed none none none) else none)
       (fun k => if k = "i1_u1" then
         some (OtpData.mk "111111" "i1" "u1" 0 100) else none))
     (AuthContext.mk "u1" "u1@x") "i1" "999999" 5
     (OtpData.mk "111111" "i1" "u1" 0 100)
     (Item.mk "o" "o@x" ItemType.found "Bag" ["bag"]
       ItemStatus.unclaimed none none none)
     rfl (by decide) (by decide) rfl⟩

/-- C9: for every random draw in [0, 1), the value generated by
`Math.floor(100000 + Math.random() * 900000)` lies in 100000–999999
inclusive (so its decimal numeral — the OTP string — has exactly 6 digits
and is never in 000000–099999); moreover each of the 900000 values in the
range is hit exactly on an interval of draws of length 1/900000 (equal
likelihood under a uniform draw), and every value in the range is attained. -/
theorem genOtpVal_range (r : ℚ) (h0 : 0 ≤ r) (h1 : r < 1) :
    100000 ≤ genOtpVal r
    ∧ genOtpVal r ≤ 999999
    ∧ (Nat.digits 10 (genOtpVal r).toNat).length = 6
    ∧ (∀ n : ℤ, 100000 ≤ n → n ≤ 999999 →
        (genOtpVal r = n ↔
          ((n : ℚ) - 100000) / 900000 ≤ r ∧ r < (((n : ℚ) - 100000) + 1) / 900000))
    ∧ (∀ n : ℤ, 100000 ≤ n → n ≤ 999999 →
        ∃ s : ℚ, 0 ≤ s ∧ s < 1 ∧ genOtpVal s = n) := by
  have h900 : (0 : ℚ) < 900000 := by norm_num
  have hlow : 100000 ≤ genOtpVal r := by
    rw [genOtpVal]
    apply Int.le_floor.mpr
    push_cast
    nlinarith
  have hhigh : genOtpVal r ≤ 999999 := by
    have : genOtpVal r < 1000000 := by
      rw [genOtpVal]
      apply Int.floor_lt.mpr
      push_cast
      nlinarith
    omega
  refine ⟨hlow, hhigh, ?_, ?_, ?_⟩
  · have hm1 : 100000 ≤ (genOtpVal r).toNat := by omega
    have hm2 : (genOtpVal r).toNat < 1000000 := by omega
    have hlen := Nat.digits_len 10 (genOtpVal r).toNat (by norm_num) (by omega)
    have hlog : Nat.log 10 (genOtpVal r).toNat = 5 := by
      apply Nat.log_eq_of_pow_le_of_lt_pow
      · simpa using hm1
      · simpa using hm2
    rw [hlen, hlog]
  · intro n hn1 hn2
    rw [genOtpVal, Int.floor_eq_iff]
    push_cast
    constructor
    · rintro ⟨ha, hb⟩
      constructor
      · rw [div_le_iff h900]
        linarith
      · rw [lt_div_iff h900]
        linarith
    · rintro ⟨ha, hb⟩
      rw [div_le_iff h900] at ha
      rw [lt_div_iff h900] at hb
      constructor <;> linarith
  · intro n hn1 hn2
    have hc1 : (100000 : ℚ) ≤ (n : ℚ) := by exact_mod_cast hn1
    have hc2 : (n : ℚ) ≤ 999999 := by exact_mod_cast hn2
    refine ⟨((n : ℚ) - 100000) / 900000, ?_, ?_, ?_⟩
    · apply div_nonneg _ (le_of_lt h900)
      linarith
    · rw [div_lt_one h900]
      linarith
    · have h2 : (100000 : ℚ) + ((n : ℚ) - 100000) / 900000 * 900000 = (n : ℚ) := by
        field_simp
      rw [genOtpVal, h2, Int.floor_intCast]

/-- Witness for C9 at the draw 1/2 (value 550000). -/
theorem genOtpVal_range_witness :
    (0 : ℚ) ≤ 1/2 ∧ (1/2 : ℚ) < 1
    ∧ (100000 ≤ genOtpVal (1/2)
      ∧ genOtpVal (1/2) ≤ 999999
      ∧ (Nat.digits 10 (genOtpVal (1/2)).toNat).length = 6
      ∧ (∀ n : ℤ, 100000 ≤ n → n ≤ 999999 →
          (genOtpVal (1/2) = n ↔
            ((n : ℚ) - 100000) / 900000 ≤ (1/2 : ℚ) ∧
              (1/2 : ℚ) < (((n : ℚ) - 100000) + 1) / 900000))
      ∧ (∀ n : ℤ, 100000 ≤ n → n ≤ 999999 →
          ∃ s : ℚ, 0 ≤ s ∧ s < 1 ∧ genOtpVal s = n)) :=
  ⟨by norm_num, by norm_num, genOtpVal_range (1/2) (by norm_num) (by norm_num)⟩

/-- C10: in the client-side flow of ClaimPage, `verifyOtp` writes the item
to claimed (setting claimantId, claimantEmail, claimedAt) exactly when the
submitted code equals the code `sendOtp` put in component state; on a
mismatch nothing is written.  No expiry exists anywhere in this flow (the
resulting status is independent of the time of the call), and the item is
written whatever its current status — it is not re-checked. -/
theorem claimPage_verifyOtp_claims_iff_match (st : Store) (r : ℚ) (s : String)
    (u : AuthContext) (itemId : String) (now : Int) (item : Item)
    (hitem : st.items itemId = some item) :
    (s = ClaimPage.sendOtp r →
      (ClaimPage.verifyOtp st (ClaimPage.sendOtp r) s u itemId now).items itemId =
        some { item with
               status := ItemStatus.claimed,
               claimantId := some u.uid,
               claimantEmail := some u.email,
               claimedAt := some now })
    ∧ (s ≠ ClaimPage.sendOtp r →
      ClaimPage.verifyOtp st (ClaimPage.sendOtp r) s u itemId now = st)
    ∧ (∀ now2 : Int,
        ((ClaimPage.verifyOtp st (ClaimPage.sendOtp r) s u itemId now).items
          itemId).map Item.status =
        ((ClaimPage.verifyOtp st (ClaimPage.sendOtp r) s u itemId now2).items
          itemId).map Item.status) := by
  refine ⟨?_, ?_, ?_⟩
  · intro heq
    simp [ClaimPage.verifyOtp, heq, hitem]
  · intro hne
    simp [ClaimPage.verifyOtp, hne]
  · intro now2
    by_cases heq : s = ClaimPage.sendOtp r
    · simp [ClaimPage.verifyOtp, heq, hitem]
    · simp [ClaimPage.verifyOtp, heq]

/-- Witness for C10 at a concrete already-claimed item (showing the status
is not re-checked) and the matching code. -/
theorem claimPage_verifyOtp_claims_iff_match_witness :
    (Store.mk
      (fun k => if k = "i1" then
        some (Item.mk "o" "o@x" ItemType.found "Bag" ["bag"]
          ItemStatus.claimed (some "c0") (some "c0@x") (some 0)) else none)
      (fun _ => none)).items "i1" =
      some (Item.mk "o" "o@x" ItemType.found "Bag" ["bag"]
        ItemStatus.claimed (some "c0") (some "c0@x") (some 0))
    ∧ ((ClaimPage.sendOtp (1/2) = ClaimPage.sendOtp (1/2) →
        (ClaimPage.verifyOtp
          (Store.mk
            (fun k => if k = "i1" then
              some (Item.mk "o" "o@x" ItemType.found "Bag" ["bag"]
                ItemStatus.claimed (some "c0") (some "c0@x") (some 0)) else none)
            (fun _ => none))
          (ClaimPage.sendOtp (1/2)) (ClaimPage.sendOtp (1/2))
          (AuthContext.mk "u1" "u1@x") "i1" 9).items "i1" =
          some { Item.mk "o" "o@x" ItemType.found "Bag" ["bag"]
                  ItemStatus.claimed (some "c0") (some "c0@x") (some 0) with
                 status := ItemStatus.claimed,
                 claimantId := some "u1",
                 claimantEmail := some "u1@x",
                 claimedAt := some (9 : Int) })
      ∧ (ClaimPage.sendOtp (1/2) ≠ ClaimPage.sendOtp (1/2) →
        ClaimPage.verifyOtp
          (Store.mk
            (fun k => if k = "i1" then
              some (Item.mk "o" "o@x" ItemType.found "Bag" ["bag"]
                ItemStatus.claimed (some "c0") (some "c0@x") (some 0)) else none)
            (fun _ => none))
          (ClaimPage.sendOtp (1/2)) (ClaimPage.sendOtp (1/2))
          (AuthContext.mk "u1" "u1@x") "i1" 9 =
          Store.mk
            (fun k => if k = "i1" then
              some (Item.mk "o" "o@x" ItemType.found "Bag" ["bag"]
                ItemStatus.claimed (some "c0") (some "c0@x") (some 0)) else none)
            (fun _ => none))
      ∧ (∀ now2 : Int,
          ((ClaimPage.verifyOtp
            (Store.mk
              (fun k => if k = "i1" then
                some (Item.mk "o" "o@x" ItemType.found "Bag" ["bag"]
                  ItemStatus.claimed (some "c0") (some "c0@x") (some 0)) else none)
              (fun _ => none))
            (ClaimPage.sendOtp (1/2)) (ClaimPage.sendOtp (1/2))
            (AuthContext.mk "u1" "u1@x") "i1" 9).items "i1").map Item.status =
          ((ClaimPage.verifyOtp
            (Store.mk
              (fun k => if k = "i1" then
                some (Item.mk "o" "o@x" ItemType.found "Bag" ["bag"]
                  ItemStatus.claimed (some "c0") (some "c0@x") (some 0)) else none)
              (fun _ => none))
            (ClaimPage.sendOtp (1/2)) (ClaimPage.sendOtp (1/2))
            (AuthContext.mk "u1" "u1@x") "i1" now2).items "i1").map Item.status)) :=
  ⟨rfl,
   claimPage_verifyOtp_claims_iff_match
     (Store.mk
       (fun k => if k = "i1" then
         some (Item.mk "o" "o@x" ItemType.found "Bag" ["bag"]
           ItemStatus.claimed (some "c0") (some "c0@x") (some 0)) else none)
       (fun _ => none))
     (1/2) (ClaimPage.sendOtp (1/2)) (AuthContext.mk "u1" "u1@x") "i1" 9
     (Item.mk "o" "o@x" ItemType.found "Bag" ["bag"]
       ItemStatus.claimed (some "c0") (some "c0@x") (some 0))
     rfl⟩

end SmartLF
